import Mathlib

/-!
# Taskana — conversation core, shallow embedding

Shallow embedding of the conversation-intelligence core of the Taskana
repository (NestJS/TypeScript): the entity normalizer
(`ConversationAiService.resolveRelativeDate`, `normalizeTimeSlot`,
`normalizeTaskId`), the intent-classifier adapter (`ConversationAiService.classify`),
the task operations (`TaskService.create/complete/skip/shift/update/delete`,
`findSimilarInWeek`, `calculateSimilarity`), the per-conversation state store
(`StateService`) and the conversation router's confidence gate
(`ConversationService.handleText`).

Conventions of the embedding:
* Calendar dates are day counts since 0000-03-01 (the civil-from-days /
  days-from-civil algorithms), so `date-fns` `addDays`/`subDays`/`nextDay`
  and `format(..., 'yyyy-MM-dd')` become plain arithmetic plus formatting.
* The ambient clock (`new Date()` / `Date.now()`) is passed explicitly:
  wall-clock milliseconds as a `Nat` argument `now`, the current civil date
  as a `Nat` argument `today`, ISO timestamp strings as a `String` argument
  `nowIso` where the source stores `new Date().toISOString()`.
* The JSON day files behind `PersistenceService` are a map from ISO date
  string to `DayLog`; effectful methods pass the map explicitly and return
  the updated map.
* JavaScript string truthiness (`if (entities.taskTitle)`) is modelled by
  `isTruthy` on `Option String`: absent or empty strings are falsy.
-/

namespace Taskana

/-! ## Calendar dates

Day counts since 0000-03-01, converted to and from civil `(year, month, day)`
triples with the standard era-based algorithms (valid for year ≥ 0, which
covers every date the program can parse from an ISO string). -/

/-- Gregorian leap-year test. -/
def isLeapYear (y : Nat) : Bool :=
  (y % 4 == 0 && y % 100 != 0) || y % 400 == 0

/-- Number of days in a civil month. -/
def daysInMonth (y m : Nat) : Nat :=
  if m = 2 then (if isLeapYear y then 29 else 28)
  else if m = 4 ∨ m = 6 ∨ m = 9 ∨ m = 11 then 30
  else 31

/-- Civil `(y, m, d)` to day count since 0000-03-01 (days-from-civil). -/
def civilToDays (y m d : Nat) : Nat :=
  let y' := if m ≤ 2 then y - 1 else y
  let era := y' / 400
  let yoe := y' % 400
  let mp := if 2 < m then m - 3 else m + 9
  let doy := (153 * mp + 2) / 5 + (d - 1)
  let doe := yoe * 365 + yoe / 4 - yoe / 100 + doy
  era * 146097 + doe

/-- Day count since 0000-03-01 back to civil `(y, m, d)` (civil-from-days). -/
def daysToCivil (z : Nat) : Nat × Nat × Nat :=
  let era := z / 146097
  let doe := z % 146097
  let yoe := (doe - doe / 1460 + doe / 36524 - doe / 146097) / 365
  let y := yoe + era * 400
  let doy := doe - (365 * yoe + yoe / 4 - yoe / 100)
  let mp := (5 * doy + 2) / 153
  let d := doy - (153 * mp + 2) / 5 + 1
  let m := if mp < 10 then mp + 3 else mp - 9
  (if m ≤ 2 then y + 1 else y, m, d)

/-- JavaScript `Date.prototype.getDay` convention: 0 = Sunday … 6 = Saturday.
Day 0 of the count (0000-03-01) was a Wednesday. -/
def jsDayOfWeek (z : Nat) : Nat :=
  (z + 3) % 7

/-- `date-fns` `nextDay`: the next date with the given JS weekday,
strictly after `z` (so the same weekday rolls forward 7 days). -/
def nextWeekday (z : Nat) (target : Nat) : Nat :=
  z + ((target + 7 - jsDayOfWeek z - 1) % 7 + 1)

/-! ## String helpers mirroring the JavaScript operations used by the source -/

/-- ASCII lower-casing, the effect of `String.prototype.toLowerCase` on the
inputs the program handles (Arabic script has no case). -/
def jsToLower (s : String) : String :=
  String.mk (s.data.map Char.toLower)

/-- Decimal digit test, JS `\d`. -/
def isDigitChar (c : Char) : Bool :=
  '0' ≤ c && c ≤ '9'

/-- JS `\s` for the characters that occur in this program's inputs. -/
def isWsChar (c : Char) : Bool :=
  c = ' ' ∨ c = '\t' ∨ c = '\n' ∨ c = '\r'

/-- `String.prototype.trim` (for the whitespace this program meets). -/
def trimWs (cs : List Char) : List Char :=
  ((cs.dropWhile isWsChar).reverse.dropWhile isWsChar).reverse

/-- Value of a list of decimal digit characters. -/
def digitsToNat (cs : List Char) : Nat :=
  cs.foldl (fun acc c => acc * 10 + (c.toNat - '0'.toNat)) 0

/-- `String.prototype.padStart(len, '0')`. -/
def padStartZeros (len : Nat) (s : String) : String :=
  if s.length < len then String.mk (List.replicate (len - s.length) '0') ++ s
  else s

/-- Zero-padded decimal rendering of a `Nat` (used for `t-NNN` ids and
`yyyy-MM-dd` formatting). -/
def natPad (len n : Nat) : String :=
  padStartZeros len (toString n)

/-- `format(date, 'yyyy-MM-dd')` on a day count. -/
def formatISODate (z : Nat) : String :=
  let c := daysToCivil z
  natPad 4 c.1 ++ ("-") ++ natPad 2 c.2.1 ++ ("-") ++ natPad 2 c.2.2

/-- Split a character list into maximal runs separated by the given
delimiter character (used for `yyyy-MM-dd` and `dd/MM/yyyy` parsing). -/
def splitOnChar (sep : Char) : List Char → List (List Char)
  | [] => [[]]
  | c :: cs =>
    let rest := splitOnChar sep cs
    if c = sep then [] :: rest
    else
      match rest with
      | [] => [[c]]
      | g :: gs => (c :: g) :: gs

/-- A run of decimal digits of exactly the expected width, as a number. -/
def fixedDigits (width : Nat) (cs : List Char) : Option Nat :=
  if cs.length = width ∧ cs.all isDigitChar then some (digitsToNat cs) else none

/-- Validity of a civil date, as enforced by `date-fns` `parse` and by the
ISO path of the JS `Date` constructor (`2026-02-31` is an invalid date). -/
def validCivil (y m d : Nat) : Bool :=
  1 ≤ m && m ≤ 12 && 1 ≤ d && d ≤ daysInMonth y m

/-- Parse a strict `yyyy-MM-dd` string to a day count.  Used where the
source calls `parse(s, 'yyyy-MM-dd', ...)` or `new Date(isoString)`;
anything malformed yields `none` (the source's Invalid Date). -/
def parseISODate (s : String) : Option Nat :=
  match splitOnChar '-' s.data with
  | [ys, ms, ds] =>
    match fixedDigits 4 ys, fixedDigits 2 ms, fixedDigits 2 ds with
    | some y, some m, some d =>
      if validCivil y m d then some (civilToDays y m d) else none
    | _, _, _ => none
  | _ => none

/-- JS truthiness of an optional string: absent and `""` are falsy. -/
def isTruthy : Option String → Bool
  | none => false
  | some s => !s.isEmpty

/-- Leading run of digits after optional whitespace and sign, as a `JS
parseInt(s, 10)` value: `none` is `NaN`, and trailing garbage is ignored
(`parseInt("12x") = 12`). -/
def jsParseInt (s : String) : Option Int :=
  let cs := s.data.dropWhile isWsChar
  let signed : Bool × List Char :=
    match cs with
    | '-' :: rest => (true, rest)
    | '+' :: rest => (false, rest)
    | rest => (false, rest)
  let digits := signed.2.takeWhile isDigitChar
  if digits.isEmpty then none
  else
    let v : Int := Int.ofNat (digitsToNat digits)
    some (if signed.1 then -v else v)

/-! ## Core vocabulary -/

/-- `Status` of a habit or task entry (`daily-log.schema`). -/
inductive Status
  | pending
  | done
  | skipped
  | shifted
deriving DecidableEq, Repr

/-- The conversation's pending state (`PendingState` in the interfaces). -/
inductive PendingState
  | idle
  | awaiting_justification
  | awaiting_shift_date
  | awaiting_confirmation
  | awaiting_image_tag
deriving DecidableEq, Repr

/-- The closed intent vocabulary (`INTENT_TYPES`). -/
inductive IntentType
  | greeting
  | help
  | habit_done
  | habit_skipped
  | habit_list
  | habit_status
  | task_create
  | task_complete
  | task_skip
  | task_shift
  | task_update
  | task_delete
  | task_list
  | daily_summary
  | weekly_summary
  | confirmation
  | rejection
  | image_tag_response
  | unclear
deriving DecidableEq, Repr

/-- The string spelling of each intent (the `INTENT_TYPES` literals). -/
def intentToString : IntentType → String
  | .greeting => "greeting"
  | .help => "help"
  | .habit_done => "habit_done"
  | .habit_skipped => "habit_skipped"
  | .habit_list => "habit_list"
  | .habit_status => "habit_status"
  | .task_create => "task_create"
  | .task_complete => "task_complete"
  | .task_skip => "task_skip"
  | .task_shift => "task_shift"
  | .task_update => "task_update"
  | .task_delete => "task_delete"
  | .task_list => "task_list"
  | .daily_summary => "daily_summary"
  | .weekly_summary => "weekly_summary"
  | .confirmation => "confirmation"
  | .rejection => "rejection"
  | .image_tag_response => "image_tag_response"
  | .unclear => "unclear"

/-- `INTENT_TYPES.includes(s)` as a partial inverse of `intentToString`. -/
def intentOfString (s : String) : Option IntentType :=
  if s = intentToString .greeting then some .greeting
  else if s = intentToString .help then some .help
  else if s = intentToString .habit_done then some .habit_done
  else if s = intentToString .habit_skipped then some .habit_skipped
  else if s = intentToString .habit_list then some .habit_list
  else if s = intentToString .habit_status then some .habit_status
  else if s = intentToString .task_create then some .task_create
  else if s = intentToString .task_complete then some .task_complete
  else if s = intentToString .task_skip then some .task_skip
  else if s = intentToString .task_shift then some .task_shift
  else if s = intentToString .task_update then some .task_update
  else if s = intentToString .task_delete then some .task_delete
  else if s = intentToString .task_list then some .task_list
  else if s = intentToString .daily_summary then some .daily_summary
  else if s = intentToString .weekly_summary then some .weekly_summary
  else if s = intentToString .confirmation then some .confirmation
  else if s = intentToString .rejection then some .rejection
  else if s = intentToString .image_tag_response then some .image_tag_response
  else if s = intentToString .unclear then some .unclear
  else none

/-- The canonical 9-value time-slot vocabulary (`ISLAMIC_TIME_SLOTS`).
Slots travel as strings in the embedding because the classifier emits raw
strings that are only validated, never retyped, by `normalizeTimeSlot`. -/
def ISLAMIC_TIME_SLOTS : List String :=
  [("after_fajr"), ("before_dhuhr"), ("after_dhuhr"), ("before_asr"),
   ("after_asr"), ("before_maghrib"), ("after_maghrib"), ("before_isha"),
   ("after_isha")]

/-- Extracted entities of a classification (`ExtractedEntities`).  The time
slot is kept as the raw string the model produced, as in the untyped JSON
that the TypeScript interface merely asserts a type over. -/
structure ExtractedEntities where
  habitId : Option String := none
  taskId : Option String := none
  taskTitle : Option String := none
  taskDescription : Option String := none
  timeSlot : Option String := none
  targetDate : Option String := none
  rawDateExpression : Option String := none
  justification : Option String := none
  selectedOption : Option Int := none
  additionalContext : Option String := none
deriving DecidableEq, Repr

/-- A classification result (`ClassifiedIntent`). -/
structure ClassifiedIntent where
  intent : IntentType
  confidence : ℚ
  entities : ExtractedEntities
  followUpQuestion : Option String := none
  wasEscalated : Option Bool := none
  rawResponse : Option String := none
deriving DecidableEq, Repr

/-! ## Task-reference normalization — the two implementations

`TaskService.normalizeTaskId` (task.service.ts) strips an optional `t`/`t-`
prefix, runs `parseInt`, and re-renders as `t-NNN`; `ConversationAiService.normalizeTaskId`
(conversation-ai.service.ts) returns bare digit strings unchanged and only
rewrites `t`-prefixed forms. -/

/-- The effect of `taskId.replace(/^t-?/i, '')`. -/
def stripLeadingT (cs : List Char) : List Char :=
  match cs with
  | c :: rest =>
    if c = 't' ∨ c = 'T' then
      match rest with
      | '-' :: rest2 => rest2
      | _ => rest
    else cs
  | [] => []

/-- `TaskService.normalizeTaskId`: strip `t`/`t-`, `parseInt`, pad to
`t-NNN`; non-numeric input is returned as-is. -/
def TaskService.normalizeTaskId (taskId : String) : String :=
  let numPart := String.mk (stripLeadingT taskId.data)
  match jsParseInt numPart with
  | none => taskId
  | some num => ("t-") ++ padStartZeros 3 (toString num)

/-- The regex `/^t-?(\d+)$/i`: an optional dash after `t`/`T`, then one or
more digits to the end; yields the digit group. -/
def matchTDashDigits (cs : List Char) : Option (List Char) :=
  match cs with
  | c :: rest =>
    if c = 't' ∨ c = 'T' then
      let digits := match rest with
        | '-' :: rest2 => rest2
        | _ => rest
      if digits ≠ [] ∧ digits.all isDigitChar then some digits else none
    else none
  | [] => none

/-- `ConversationAiService.normalizeTaskId`: bare digit strings are kept
as-is; only `t`-prefixed forms are padded to `t-NNN`. -/
def ConversationAiService.normalizeTaskId (taskId : String) : String :=
  if taskId.data ≠ [] ∧ taskId.data.all isDigitChar then taskId
  else
    match matchTDashDigits taskId.data with
    | some digits => ("t-") ++ padStartZeros 3 (String.mk digits)
    | none => taskId

/-! ## Relative-date resolution (`ConversationAiService.resolveRelativeDate`) -/

/-- Parse `dd/MM/yyyy`-shaped input (or `dd-MM-yyyy` with the other
separator), at the canonical widths the program ever produces. -/
def parseDayMonthYear (sep : Char) (s : String) : Option Nat :=
  match splitOnChar sep s.data with
  | [ds, ms, ys] =>
    match fixedDigits 2 ds, fixedDigits 2 ms, fixedDigits 4 ys with
    | some d, some m, some y =>
      if validCivil y m d then some (civilToDays y m d) else none
    | _, _, _ => none
  | _ => none

/-- Parse `MM/dd/yyyy`-shaped input. -/
def parseMonthDayYear (s : String) : Option Nat :=
  match splitOnChar '/' s.data with
  | [ms, ds, ys] =>
    match fixedDigits 2 ms, fixedDigits 2 ds, fixedDigits 4 ys with
    | some m, some d, some y =>
      if validCivil y m d then some (civilToDays y m d) else none
    | _, _, _ => none
  | _ => none

/-- English weekday names to JS weekday numbers. -/
def englishDays : List (String × Nat) :=
  [(("sunday"), 0), (("monday"), 1), (("tuesday"), 2), (("wednesday"), 3),
   (("thursday"), 4), (("friday"), 5), (("saturday"), 6)]

/-- Arabic weekday names (several spellings) to JS weekday numbers. -/
def arabicDays : List (String × Nat) :=
  [(("الأحد"), 0), (("أحد"), 0),
   (("الإثنين"), 1), (("اتنين"), 1), (("الاثنين"), 1),
   (("الثلاثاء"), 2), (("تلات"), 2),
   (("الأربعاء"), 3), (("أربع"), 3), (("اربع"), 3),
   (("الخميس"), 4), (("خميس"), 4),
   (("الجمعة"), 5), (("جمعة"), 5),
   (("السبت"), 6), (("سبت"), 6)]

/-- Association-list lookup (a TS record indexed by a computed key). -/
def lookupStr (table : List (String × Nat)) (key : String) : Option Nat :=
  match table.find? (fun p => p.1 = key) with
  | some p => some p.2
  | none => none

/-- `ConversationAiService.resolveRelativeDate(expression, referenceDate)`:
today/tomorrow/day-after/yesterday families in Arabic and English, weekday
names resolved to the next occurrence strictly after the reference date,
then a fallback over four literal date formats; `none` when nothing
matches.  An unparseable reference date is modelled as `none` for the
branches that need it (the source would throw on formatting an Invalid
Date; no caller passes one). -/
def ConversationAiService.resolveRelativeDate (expression referenceDate : String) :
    Option String :=
  let normalized := String.mk (trimWs (jsToLower expression).data)
  let refDate := parseISODate referenceDate
  if normalized ∈ [("today"), ("النهارده"), ("النهاردة"), ("اليوم")] then
    some referenceDate
  else if normalized ∈ [("tomorrow"), ("بكرة"), ("بكره"), ("غدا"), ("غدًا")] then
    refDate.map (fun z => formatISODate (z + 1))
  else if normalized ∈ [("day after tomorrow"), ("بعد بكره"), ("بعد بكرة"), ("بعد غد")] then
    refDate.map (fun z => formatISODate (z + 2))
  else if normalized ∈ [("yesterday"), ("أمبارح"), ("امبارح"), ("أمس")] then
    refDate.map (fun z => formatISODate (z - 1))
  else
    match lookupStr englishDays normalized with
    | some d => refDate.map (fun z => formatISODate (nextWeekday z d))
    | none =>
      match lookupStr arabicDays normalized with
      | some d => refDate.map (fun z => formatISODate (nextWeekday z d))
      | none =>
        match parseISODate normalized with
        | some z => some (formatISODate z)
        | none =>
          match parseDayMonthYear '/' normalized with
          | some z => some (formatISODate z)
          | none =>
            match parseDayMonthYear '-' normalized with
            | some z => some (formatISODate z)
            | none =>
              match parseMonthDayYear normalized with
              | some z => some (formatISODate z)
              | none => none

/-! ## Time-slot normalization (`ConversationAiService.normalizeTimeSlot`) -/

/-- `replace(/\s+/g, '_')`: collapse each whitespace run to one underscore. -/
def collapseWsToUnderscore : List Char → List Char
  | [] => []
  | c :: cs =>
    if isWsChar c then
      match cs with
      | [] => ['_']
      | c2 :: _ =>
        if isWsChar c2 then collapseWsToUnderscore cs
        else '_' :: collapseWsToUnderscore cs
    else c :: collapseWsToUnderscore cs

/-- Arabic phrases for time slots (two spellings of Dhuhr and friends). -/
def slotMap : List (String × String) :=
  [(("بعد_الفجر"), ("after_fajr")), (("بعد_فجر"), ("after_fajr")),
   (("الصبح"), ("after_fajr")),
   (("قبل_الظهر"), ("before_dhuhr")), (("قبل_الضهر"), ("before_dhuhr")),
   (("بعد_الظهر"), ("after_dhuhr")), (("بعد_الضهر"), ("after_dhuhr")),
   (("قبل_العصر"), ("before_asr")), (("بعد_العصر"), ("after_asr")),
   (("قبل_المغرب"), ("before_maghrib")), (("بعد_المغرب"), ("after_maghrib")),
   (("قبل_العشاء"), ("before_isha")), (("بعد_العشاء"), ("after_isha"))]

/-- `ConversationAiService.normalizeTimeSlot`: lowercase, collapse
whitespace to underscores, accept canonical slots, then the Arabic table;
unknown input yields `none`. -/
def ConversationAiService.normalizeTimeSlot (slot : String) : Option String :=
  let normalized := String.mk (collapseWsToUnderscore (trimWs (jsToLower slot).data))
  if normalized ∈ ISLAMIC_TIME_SLOTS then some normalized
  else
    match slotMap.find? (fun p => p.1 = normalized) with
    | some p => some p.2
    | none => none

/-! ## The intent-classifier adapter (`ConversationAiService.classify`) -/

/-- Raw JSON payload shape of a model response
(`RawClassificationResponse`); every field may be absent. -/
structure RawClassificationResponse where
  intent : Option String := none
  confidence : Option ℚ := none
  entities : Option ExtractedEntities := none
  followUpQuestion : Option String := none
deriving DecidableEq, Repr

/-- Outcome of one call to the underlying classification capability: the
API call threw, the content failed `JSON.parse`, or it parsed to a raw
response. -/
inductive ModelOutcome
  | threw
  | unparseable (content : String)
  | parsed (raw : RawClassificationResponse) (content : String)
deriving DecidableEq, Repr

/-- Minimal conversation context (`ConversationContext`); the adapter only
reads `currentDate` during entity normalization. -/
structure ConversationContext where
  phoneNumber : String := ""
  currentDate : String
  currentSlot : String := ("after_fajr")
  pendingState : PendingState := .idle
  pendingReference : Option String := none
  pendingAction : Option String := none
  activeHabits : List String := []
  todayTasks : List String := []
deriving DecidableEq, Repr

/-- The synonym table of `normalizeIntent`. -/
def intentMap : List (String × IntentType) :=
  [(("greet"), .greeting), (("hi"), .greeting), (("hello"), .greeting),
   (("done"), .habit_done), (("complete"), .task_complete),
   (("skip"), .habit_skipped), (("shift"), .task_shift), (("move"), .task_shift),
   (("create"), .task_create), (("add"), .task_create), (("new"), .task_create),
   (("delete"), .task_delete), (("remove"), .task_delete),
   (("list"), .task_list), (("tasks"), .task_list),
   (("summary"), .daily_summary),
   (("yes"), .confirmation), (("confirm"), .confirmation),
   (("no"), .rejection), (("cancel"), .rejection)]

/-- `ConversationAiService.normalizeIntent`: lowercase/trim, accept the
closed vocabulary, then the synonym table, else `unclear`.  An absent
intent string (optional chaining over `undefined`) is `unclear`. -/
def ConversationAiService.normalizeIntent (intent : Option String) : IntentType :=
  match intent with
  | none => .unclear
  | some s =>
    let normalized := String.mk (trimWs (jsToLower s).data)
    match intentOfString normalized with
    | some i => i
    | none =>
      match intentMap.find? (fun p => p.1 = normalized) with
      | some p => p.2
      | none => .unclear

/-- `Math.max(0, Math.min(1, c))`. -/
def clamp01 (q : ℚ) : ℚ :=
  max 0 (min 1 q)

/-- `ConversationAiService.parseClassificationResponse`: validate the
intent, clamp the confidence (default `0.5` when absent), default the
entities. -/
def ConversationAiService.parseClassificationResponse
    (raw : RawClassificationResponse) (rawContent : String) : ClassifiedIntent :=
  { intent := ConversationAiService.normalizeIntent raw.intent
    confidence := clamp01 (raw.confidence.getD (mkRat 1 2))
    entities := raw.entities.getD {}
    followUpQuestion := raw.followUpQuestion
    rawResponse := some rawContent }

/-- `ConversationAiService.callClassificationModel` after the HTTP layer:
a thrown call propagates (`none`); unparseable content is caught locally
and becomes a 0.3-confidence `unclear`; parsed content is validated. -/
def ConversationAiService.callClassificationModel (o : ModelOutcome) :
    Option ClassifiedIntent :=
  match o with
  | .threw => none
  | .unparseable content =>
    some { intent := .unclear
           confidence := mkRat 3 10
           entities := {}
           followUpQuestion := some ("مش فاهم قصدك. ممكن توضح أكتر؟")
           rawResponse := some content }
  | .parsed raw content => some (ConversationAiService.parseClassificationResponse raw content)

/-- `CONFIDENCE_THRESHOLDS.ESCALATION`. -/
def ESCALATION_THRESHOLD : ℚ := mkRat 6 10

/-- `ConversationAiService.normalizeEntities`: canonicalize the time slot,
resolve a raw date expression into `targetDate` when none is present,
canonicalize the task reference. -/
def ConversationAiService.normalizeEntities
    (entities : ExtractedEntities) (context : ConversationContext) : ExtractedEntities :=
  let e1 :=
    match entities.timeSlot with
    | some slot => { entities with timeSlot := ConversationAiService.normalizeTimeSlot slot }
    | none => entities
  let e2 :=
    match e1.rawDateExpression, e1.targetDate with
    | some expr, none =>
      match ConversationAiService.resolveRelativeDate expr context.currentDate with
      | some resolved => { e1 with targetDate := some resolved }
      | none => e1
    | _, _ => e1
  match e2.taskId with
  | some tid => { e2 with taskId := some (ConversationAiService.normalizeTaskId tid) }
  | none => e2

/-- The synthetic result of the `catch` block in `classify`. -/
def classifyErrorResult : ClassifiedIntent :=
  { intent := .unclear
    confidence := 0
    entities := {}
    followUpQuestion := some ("عذراً، حدث خطأ. ممكن تعيد الرسالة؟") }

/-- `ConversationAiService.classify`: fast-model call, escalation to the
capable model when `confidence < 0.6` and the intent is not `unclear`
(the source's condition — the design doc says `greeting`), replacement
only when the escalated confidence strictly exceeds the first, entity
normalization, and a catch-all converting any throw into a synthetic
zero-confidence `unclear`. -/
def ConversationAiService.classify
    (fast capable : ModelOutcome) (context : ConversationContext) : ClassifiedIntent :=
  match ConversationAiService.callClassificationModel fast with
  | none => classifyErrorResult
  | some result =>
    if result.confidence < ESCALATION_THRESHOLD ∧ result.intent ≠ .unclear then
      match ConversationAiService.callClassificationModel capable with
      | none => classifyErrorResult
      | some escalated0 =>
        let escalated := { escalated0 with wasEscalated := some true }
        let final := if escalated.confidence > result.confidence then escalated else result
        { final with entities := ConversationAiService.normalizeEntities final.entities context }
    else
      { result with entities := ConversationAiService.normalizeEntities result.entities context }

/-! ## Day-keyed persistence (`PersistenceService`)

The day files are a map from ISO date string to `DayLog`.  `loadDay`
lazily materializes an empty log for a missing date; since an empty log
answers every query exactly like a missing file, the read operations are
modelled as pure and only the writes return an updated map.  Habit entries
are not touched by any embedded operation and are omitted from `DayLog`. -/

/-- A persisted task (`TaskEntry` of `daily-log.schema`). -/
structure TaskEntry where
  id : String
  title : String
  description : Option String := none
  islamicTimeSlot : String
  status : Status := .pending
  completedAt : Option String := none
  createdAt : String := ""
  images : List String := []
  origin : Option String := none
  shiftedTo : Option String := none
  shiftReason : Option String := none
deriving DecidableEq, Repr

/-- One day's log (`DailyLog`), restricted to the task fields. -/
structure DayLog where
  nextTaskId : Nat := 1
  tasks : List TaskEntry := []
deriving DecidableEq, Repr

/-- The day-file map. -/
def Storage : Type := String → Option DayLog

/-- `createEmptyDailyLog`. -/
def emptyDayLog : DayLog := {}

/-- `loadDay`/`getDay`: a missing file reads as an empty log. -/
def Storage.getDay (s : Storage) (date : String) : DayLog :=
  (s date).getD emptyDayLog

/-- Replace (or create) one day's log. -/
def Storage.setDay (s : Storage) (date : String) (log : DayLog) : Storage :=
  fun q => if q = date then some log else s q

/-- `PersistenceService.getTask`: `log.tasks.find(t => t.id === taskId)`. -/
def Storage.getTask (s : Storage) (date taskId : String) : Option TaskEntry :=
  (Storage.getDay s date).tasks.find? (fun t => t.id = taskId)

/-- The partial update handed to `PersistenceService.updateTask`.  A field
holds `some v` when the TS `updates` object carries the key; `shiftReason`
is doubly optional because `skip`/`shift` pass the key with a possibly
`undefined` value, which `Object.assign` copies. -/
structure TaskUpdate where
  status : Option Status := none
  title : Option String := none
  description : Option String := none
  islamicTimeSlot : Option String := none
  shiftedTo : Option String := none
  shiftReason : Option (Option String) := none
deriving DecidableEq, Repr

/-- `Object.assign(task, updates)` plus the `completedAt` stamping of
`updateTask` (set when the update marks `done` and no timestamp exists). -/
def TaskEntry.applyUpdate (t : TaskEntry) (u : TaskUpdate) (nowIso : String) : TaskEntry :=
  let t1 : TaskEntry :=
    { t with
      status := u.status.getD t.status
      title := u.title.getD t.title
      description := match u.description with
        | some v => some v
        | none => t.description
      islamicTimeSlot := u.islamicTimeSlot.getD t.islamicTimeSlot
      shiftedTo := match u.shiftedTo with
        | some v => some v
        | none => t.shiftedTo
      shiftReason := match u.shiftReason with
        | some v => v
        | none => t.shiftReason }
  if u.status = some .done ∧ t1.completedAt = none then
    { t1 with completedAt := some nowIso }
  else t1

/-- Apply `f` to the first entry with the given id, returning it. -/
def updateFirstTask (taskId : String) (f : TaskEntry → TaskEntry) :
    List TaskEntry → Option TaskEntry × List TaskEntry
  | [] => (none, [])
  | t :: rest =>
    if t.id = taskId then (some (f t), f t :: rest)
    else
      let r := updateFirstTask taskId f rest
      (r.1, t :: r.2)

/-- `PersistenceService.updateTask`: mutate the first matching entry and
save; `none` and no write when the task is absent. -/
def Storage.updateTask (s : Storage) (nowIso date taskId : String) (u : TaskUpdate) :
    Option TaskEntry × Storage :=
  let log := Storage.getDay s date
  match updateFirstTask taskId (fun t => TaskEntry.applyUpdate t u nowIso) log.tasks with
  | (none, _) => (none, s)
  | (some t', tasks') => (some t', Storage.setDay s date { log with tasks := tasks' })

/-- The caller-supplied fields of `PersistenceService.addTask`. -/
structure NewTaskFields where
  title : String
  description : Option String := none
  islamicTimeSlot : String
  origin : Option String := none
  shiftedTo : Option String := none
  shiftReason : Option String := none
deriving DecidableEq, Repr

/-- `PersistenceService.addTask`: assign `t-NNN` from the day's monotonic
counter, push a fresh pending entry, save. -/
def Storage.addTask (s : Storage) (nowIso date : String) (f : NewTaskFields) :
    TaskEntry × Storage :=
  let log := Storage.getDay s date
  let taskId := ("t-") ++ padStartZeros 3 (toString log.nextTaskId)
  let newTask : TaskEntry :=
    { id := taskId
      title := f.title
      description := f.description
      islamicTimeSlot := f.islamicTimeSlot
      status := .pending
      completedAt := none
      createdAt := nowIso
      images := []
      origin := f.origin
      shiftedTo := f.shiftedTo
      shiftReason := f.shiftReason }
  (newTask, Storage.setDay s date
    { log with nextTaskId := log.nextTaskId + 1, tasks := log.tasks ++ [newTask] })

/-- Modelled from the spec: `PersistenceService.deleteTask(date, id) -> bool`
is called by `TaskService.delete` but its body is not part of the source
snapshot (only its callers and test mocks are).  Per spec §6 it removes the
entry with the given id from the day's record and reports whether one
existed. -/
def Storage.deleteTask (s : Storage) (date taskId : String) : Bool × Storage :=
  let log := Storage.getDay s date
  if log.tasks.any (fun t => t.id = taskId) then
    (true, Storage.setDay s date { log with tasks := log.tasks.filter (fun t => ¬ t.id = taskId) })
  else (false, s)

/-! ## Task operations (`TaskService`) -/

/-- Uniform result of a task operation (`TaskOperationResult`). -/
structure TaskOperationResult where
  success : Bool
  task : Option TaskEntry := none
  message : String
  error : Option String := none
deriving DecidableEq, Repr

/-- `TaskService.create`: requires a truthy title, defaults the slot to
`after_dhuhr` (nullish coalescing), delegates id assignment to storage.
The `catch` branch of the source guards file-system failures that the
storage model cannot produce. -/
def TaskService.create (s : Storage) (nowIso date : String) (entities : ExtractedEntities) :
    TaskOperationResult × Storage :=
  if !isTruthy entities.taskTitle then
    ({ success := false, message := ("لازم تحدد عنوان المهمة."),
       error := some ("Missing task title") }, s)
  else
    let timeSlot := entities.timeSlot.getD ("after_dhuhr")
    let r := Storage.addTask s nowIso date
      { title := entities.taskTitle.getD ""
        description := entities.taskDescription
        islamicTimeSlot := timeSlot }
    ({ success := true, task := some r.1,
       message := ("تم إضافة مهمة: \"") ++ r.1.title ++ ("\"") }, r.2)

/-- `TaskService.complete`: not-found / already-done / already-shifted
guards, then transition to `done`. -/
def TaskService.complete (s : Storage) (nowIso date taskId : String) :
    TaskOperationResult × Storage :=
  let normalizedId := TaskService.normalizeTaskId taskId
  match Storage.getTask s date normalizedId with
  | none =>
    ({ success := false, message := ("المهمة ") ++ taskId ++ (" مش موجودة."),
       error := some ("Task not found") }, s)
  | some task =>
    if task.status = .done then
      ({ success := false, task := some task,
         message := ("المهمة \"") ++ task.title ++ ("\" خلصت قبل كده."),
         error := some ("Task already completed") }, s)
    else if task.status = .shifted then
      ({ success := false, task := some task,
         message := ("المهمة \"") ++ task.title ++ ("\" اتنقلت ليوم تاني."),
         error := some ("Task was shifted") }, s)
    else
      let r := Storage.updateTask s nowIso date normalizedId { status := some .done }
      ({ success := true, task := r.1,
         message := ("✅ تم إنهاء: \"") ++ task.title ++ ("\"") }, r.2)

/-- `TaskService.skip`: same guards as `complete`; the optional
justification is stored in the reused `shiftReason` field. -/
def TaskService.skip (s : Storage) (nowIso date taskId : String)
    (justification : Option String) : TaskOperationResult × Storage :=
  let normalizedId := TaskService.normalizeTaskId taskId
  match Storage.getTask s date normalizedId with
  | none =>
    ({ success := false, message := ("المهمة ") ++ taskId ++ (" مش موجودة."),
       error := some ("Task not found") }, s)
  | some task =>
    if task.status = .done then
      ({ success := false, task := some task,
         message := ("المهمة \"") ++ task.title ++ ("\" خلصت قبل كده، مينفعش تتخطاها."),
         error := some ("Cannot skip completed task") }, s)
    else if task.status = .shifted then
      ({ success := false, task := some task,
         message := ("المهمة \"") ++ task.title ++ ("\" اتنقلت ليوم تاني."),
         error := some ("Task was shifted") }, s)
    else
      let r := Storage.updateTask s nowIso date normalizedId
        { status := some .skipped, shiftReason := some justification }
      ({ success := true, task := r.1,
         message := ("⏭️ تم تخطي: \"") ++ task.title ++ ("\"") }, r.2)

/-- Arabic weekday names used by `TaskService.formatDate`. -/
def arabicDayName (jsDay : Nat) : String :=
  if jsDay = 0 then ("الأحد")
  else if jsDay = 1 then ("الاثنين")
  else if jsDay = 2 then ("الثلاثاء")
  else if jsDay = 3 then ("الأربعاء")
  else if jsDay = 4 then ("الخميس")
  else if jsDay = 5 then ("الجمعة")
  else ("السبت")

/-- `TaskService.formatDate`: today / tomorrow / weekday plus `MM/dd`.
`today` is the ambient current date passed explicitly. -/
def TaskService.formatDate (today : Nat) (dateStr : String) : String :=
  match parseISODate dateStr with
  | none => dateStr
  | some z =>
    if formatISODate z = formatISODate today then ("النهارده")
    else if formatISODate z = formatISODate (today + 1) then ("بكرة")
    else
      let c := daysToCivil z
      arabicDayName (jsDayOfWeek z) ++ (" ") ++ natPad 2 c.2.1 ++ ("/") ++ natPad 2 c.2.2

/-- The past-date check of `TaskService.shift`:
`isBefore(startOfDay(new Date(targetDate)), startOfDay(new Date()))`.
An unparseable target is JS `NaN`, and every comparison against `NaN` is
false, so the check passes. -/
def shiftPastCheck (today : Nat) (targetDate : String) : Bool :=
  match parseISODate targetDate with
  | some t => t < today
  | none => false

/-- `TaskService.shift`: past-date guard **before** the lookup, then
not-found / already-done / already-shifted guards; on success the source
entry becomes `shifted` (with provenance) and a fresh entry is created on
the target day with `origin` set. -/
def TaskService.shift (s : Storage) (today : Nat) (nowIso date taskId targetDate : String)
    (reason : Option String) : TaskOperationResult × Storage :=
  let normalizedId := TaskService.normalizeTaskId taskId
  if shiftPastCheck today targetDate then
    ({ success := false, message := ("مينفعش تنقل المهمة لتاريخ فات."),
       error := some ("Cannot shift to past date") }, s)
  else
    match Storage.getTask s date normalizedId with
    | none =>
      ({ success := false, message := ("المهمة ") ++ taskId ++ (" مش موجودة."),
         error := some ("Task not found") }, s)
    | some task =>
      if task.status = .done then
        ({ success := false, task := some task,
           message := ("المهمة \"") ++ task.title ++ ("\" خلصت، مينفعش تتنقل."),
           error := some ("Cannot shift completed task") }, s)
      else if task.status = .shifted then
        ({ success := false, task := some task,
           message := ("المهمة \"") ++ task.title ++ ("\" اتنقلت قبل كده."),
           error := some ("Task already shifted") }, s)
      else
        let r1 := Storage.updateTask s nowIso date normalizedId
          { status := some .shifted, shiftedTo := some targetDate, shiftReason := some reason }
        let r2 := Storage.addTask r1.2 nowIso targetDate
          { title := task.title
            description := task.description
            islamicTimeSlot := task.islamicTimeSlot
            origin := some date }
        ({ success := true, task := some r2.1,
           message := ("✅ تم نقل \"") ++ task.title ++ ("\" لـ ")
             ++ TaskService.formatDate today targetDate }, r2.2)

/-- `TaskService.update`: not-found guard, then apply only the provided
(truthy) title/description/timeSlot fields; no status guard at all. -/
def TaskService.update (s : Storage) (nowIso date taskId : String)
    (entities : ExtractedEntities) : TaskOperationResult × Storage :=
  let normalizedId := TaskService.normalizeTaskId taskId
  match Storage.getTask s date normalizedId with
  | none =>
    ({ success := false, message := ("المهمة ") ++ taskId ++ (" مش موجودة."),
       error := some ("Task not found") }, s)
  | some task =>
    let hasTitle := isTruthy entities.taskTitle
    let hasDescription := isTruthy entities.taskDescription
    let hasSlot := isTruthy entities.timeSlot
    if hasTitle ∨ hasDescription ∨ hasSlot then
      let u : TaskUpdate :=
        { title := if hasTitle then entities.taskTitle else none
          description := if hasDescription then entities.taskDescription else none
          islamicTimeSlot := if hasSlot then entities.timeSlot else none }
      let r := Storage.updateTask s nowIso date normalizedId u
      ({ success := true, task := r.1,
         message := ("تم تحديث المهمة \"") ++ ((r.1.map TaskEntry.title).getD "") ++ ("\"") },
       r.2)
    else
      ({ success := false, task := some task, message := ("مفيش تعديلات."),
         error := some ("No updates provided") }, s)

/-- `TaskService.delete`: not-found guard, then remove via the storage
capability; a false return from it is the storage-failure result. -/
def TaskService.delete (s : Storage) (date taskId : String) :
    TaskOperationResult × Storage :=
  let normalizedId := TaskService.normalizeTaskId taskId
  match Storage.getTask s date normalizedId with
  | none =>
    ({ success := false, message := ("المهمة ") ++ taskId ++ (" مش موجودة."),
       error := some ("Task not found") }, s)
  | some task =>
    let r := Storage.deleteTask s date normalizedId
    if !r.1 then
      ({ success := false, message := ("حصل خطأ في حذف المهمة."),
         error := some ("Delete failed") }, r.2)
    else
      ({ success := true, task := some task,
         message := ("🗑️ تم حذف: \"") ++ task.title ++ ("\"") }, r.2)

/-! ## Fuzzy title similarity (`TaskService.calculateSimilarity`) -/

/-- The character class kept by `replace(/[^؀-ۿa-z0-9\s]/g, '')`:
Arabic block, lowercase Latin, digits, whitespace. -/
def keepSimilarityChar (c : Char) : Bool :=
  (0x600 ≤ c.toNat && c.toNat ≤ 0x6FF) || ('a' ≤ c && c ≤ 'z') || isDigitChar c || isWsChar c

/-- Maximal non-whitespace runs of a character list (`split(/\s+/)` minus
the empty fragments, which the length filter below would drop anyway). -/
def wordRuns : List Char → List Char → List (List Char)
  | [], acc => if acc.isEmpty then [] else [acc.reverse]
  | c :: cs, acc =>
    if isWsChar c then
      if acc.isEmpty then wordRuns cs [] else acc.reverse :: wordRuns cs []
    else wordRuns cs (c :: acc)

/-- The `normalize` closure of `calculateSimilarity`: lowercase, strip to
the kept character class, split on whitespace, drop one-character words. -/
def similarityTokens (s : String) : List String :=
  ((wordRuns ((jsToLower s).data.filter keepSimilarityChar) []).map String.mk).filter
    (fun w => 1 < w.length)

/-- A JS `Set` built from a list: first occurrences, in insertion order. -/
def dedupKeepFirst : List String → List String → List String
  | [], _ => []
  | x :: xs, seen =>
    if x ∈ seen then dedupKeepFirst xs seen else x :: dedupKeepFirst xs (x :: seen)

/-- `TaskService.calculateSimilarity`: Jaccard similarity of the two token
sets; 0 when either set is empty.  `mkRat` is `intersection / union` with
the positive denominator of the guarded branch. -/
def TaskService.calculateSimilarity (str1 str2 : String) : ℚ :=
  let words1 := dedupKeepFirst (similarityTokens str1) []
  let words2 := dedupKeepFirst (similarityTokens str2) []
  if words1.length = 0 ∨ words2.length = 0 then 0
  else
    let intersection := (words1.filter (fun w => w ∈ words2)).length
    let union := words1.length + words2.length - intersection
    mkRat intersection union

/-! ## Duplicate detection (`TaskService.findSimilarInWeek`) -/

/-- A similar-task hit (`SimilarTaskResult`). -/
structure SimilarTaskResult where
  task : TaskEntry
  date : String
  similarity : ℚ
deriving DecidableEq, Repr

/-- The day visited at loop index `k` (`i = k - 3` in the source's
`for (let i = -3; i <= 3; i++)`, with `addDays`/`subDays` on the base). -/
def implCheckDate (base k : Nat) : Nat :=
  let i : Int := (k : Int) - 3
  if i = 0 then base
  else if 0 < i then base + i.toNat
  else base - (-i).toNat

/-- Insert into a descending-by-similarity list, after every strictly
greater entry and before equal ones — the stable
`results.sort((a, b) => b.similarity - a.similarity)`. -/
def insertBySimilarity (x : SimilarTaskResult) :
    List SimilarTaskResult → List SimilarTaskResult
  | [] => [x]
  | y :: ys =>
    if y.similarity > x.similarity then y :: insertBySimilarity x ys
    else x :: y :: ys

/-- Stable sort by descending similarity. -/
def sortBySimilarityDesc : List SimilarTaskResult → List SimilarTaskResult
  | [] => []
  | x :: xs => insertBySimilarity x (sortBySimilarityDesc xs)

/-- `TaskService.findSimilarInWeek`: visit the 7 days around the base
date in loop order, skip `shifted`/`done` entries, keep similarity ≥ 0.7
hits, and return the first entry of the stable descending sort (`null`
when none).  A day whose record is missing is skipped (the source's
`catch { continue }`). -/
def TaskService.findSimilarInWeek (s : Storage) (currentDate taskTitle : String) :
    Option SimilarTaskResult :=
  match parseISODate currentDate with
  | none => none
  | some baseDate =>
    let results := (List.range 7).foldl (fun acc k =>
      let dateStr := formatISODate (implCheckDate baseDate k)
      match s dateStr with
      | none => acc
      | some log =>
        acc ++ log.tasks.filterMap (fun task =>
          if task.status = .shifted ∨ task.status = .done then none
          else
            let similarity := TaskService.calculateSimilarity taskTitle task.title
            if mkRat 7 10 ≤ similarity then
              some { task := task, date := dateStr, similarity := similarity }
            else none)) []
    match results with
    | [] => none
    | _ :: _ => (sortBySimilarityDesc results).head?

/-! ## Conversation state store (`StateService`) -/

/-- Author of a history entry. -/
inductive MsgRole
  | user
  | assistant
deriving DecidableEq, Repr

/-- One history entry (`RecentMessage`); timestamps are wall-clock ms. -/
structure RecentMessage where
  role : MsgRole
  content : String
  timestamp : Nat
deriving DecidableEq, Repr

/-- Per-conversation state (`ConversationState`). -/
structure ConversationState where
  phoneNumber : String
  pendingState : PendingState := .idle
  pendingReference : Option String := none
  pendingAction : Option String := none
  pendingSetAt : Option Nat := none
  recentMessages : List RecentMessage := []
  lastActivity : Nat := 0
deriving DecidableEq, Repr

/-- The in-memory map keyed by phone number. -/
def StateStore : Type := String → Option ConversationState

/-- `Map.prototype.set`. -/
def storeSet (m : StateStore) (pn : String) (st : ConversationState) : StateStore :=
  fun q => if q = pn then some st else m q

/-- `pendingExpiryMs`: 5 minutes. -/
def PENDING_EXPIRY_MS : Nat := 5 * 60 * 1000

/-- `maxRecentMessages`. -/
def MAX_RECENT_MESSAGES : Nat := 10

/-- `StateService.createInitialState`. -/
def StateService.createInitialState (pn : String) (now : Nat) : ConversationState :=
  { phoneNumber := pn, pendingState := .idle, recentMessages := [], lastActivity := now }

/-- `StateService.isPendingExpired`: false when idle or never stamped,
else strict comparison of the elapsed time against 5 minutes. -/
def StateService.isPendingExpired (now : Nat) (st : ConversationState) : Bool :=
  if st.pendingState = .idle ∨ st.pendingSetAt = none then false
  else (now : Int) - (st.pendingSetAt.getD 0 : Nat) > (PENDING_EXPIRY_MS : Int)

/-- `StateService.clearPendingState`: reset the pending fields to idle
without touching history; reads the map directly (no expiry recursion). -/
def StateService.clearPendingState (m : StateStore) (pn : String) (now : Nat) :
    ConversationState × StateStore :=
  let st0 := (m pn).getD (StateService.createInitialState pn now)
  let st := { st0 with
    pendingState := .idle
    pendingReference := none
    pendingAction := none
    pendingSetAt := none
    lastActivity := now }
  (st, storeSet m pn st)

/-- `StateService.getState`: get or lazily create, then reset to idle
before returning when the pending data has expired. -/
def StateService.getState (m : StateStore) (pn : String) (now : Nat) :
    ConversationState × StateStore :=
  let r : ConversationState × StateStore :=
    match m pn with
    | some st => (st, m)
    | none =>
      let st := StateService.createInitialState pn now
      (st, storeSet m pn st)
  if StateService.isPendingExpired now r.1 then
    let r2 := StateService.clearPendingState r.2 pn now
    ((r2.2 pn).getD r2.1, r2.2)
  else r

/-- The partial update accepted by `setState` (`StateUpdate`). -/
structure StateUpdate where
  pendingState : Option PendingState := none
  pendingReference : Option String := none
  pendingAction : Option String := none
deriving DecidableEq, Repr

/-- `StateService.setState`: partial update; a non-idle `pendingState`
stamps `pendingSetAt = now`, idle clears it; always bumps `lastActivity`. -/
def StateService.setState (m : StateStore) (pn : String) (now : Nat) (updates : StateUpdate) :
    ConversationState × StateStore :=
  let r := StateService.getState m pn now
  let st1 := match updates.pendingState with
    | some ps =>
      { r.1 with pendingState := ps, pendingSetAt := if ps ≠ .idle then some now else none }
    | none => r.1
  let st2 := match updates.pendingReference with
    | some ref => { st1 with pendingReference := some ref }
    | none => st1
  let st3 := match updates.pendingAction with
    | some act => { st2 with pendingAction := some act }
    | none => st2
  let st4 := { st3 with lastActivity := now }
  (st4, storeSet r.2 pn st4)

/-- `StateService.addMessage`: append, keep the last 10 (`slice(-10)`),
bump `lastActivity`. -/
def StateService.addMessage (m : StateStore) (pn : String) (now : Nat)
    (role : MsgRole) (content : String) : StateStore :=
  let r := StateService.getState m pn now
  let msgs := r.1.recentMessages ++ [{ role := role, content := content, timestamp := now }]
  let msgs2 :=
    if MAX_RECENT_MESSAGES < msgs.length then msgs.drop (msgs.length - MAX_RECENT_MESSAGES)
    else msgs
  storeSet r.2 pn { r.1 with recentMessages := msgs2, lastActivity := now }

/-- `StateService.hasPendingState`: non-idle and not expired. -/
def StateService.hasPendingState (m : StateStore) (pn : String) (now : Nat) :
    Bool × StateStore :=
  let r := StateService.getState m pn now
  (decide (r.1.pendingState ≠ .idle) && !StateService.isPendingExpired now r.1, r.2)

/-! ## Conversation router — the confidence gate (`ConversationService.handleText`)

The per-intent handler dispatch (`executeHandler` plus the handler map) is
threaded as an explicit capability `IntentExec`: the confidence-gate
claims are exactly about whether that capability is consulted, and in this
source revision every `task_*` handler is the pure `handleNotImplemented`
constant. -/

/-- `AR.UNKNOWN_INTENT`. -/
def AR_UNKNOWN_INTENT : String :=
  "مش فاهم قصدك. ممكن تقول: مهامي، ضيف مهمة، خلصت، أو ابعت صورة."

/-- `AR.CONFIRMATION_PROMPT`. -/
def AR_CONFIRMATION_PROMPT (action : String) : String :=
  ("فهمت إنك عايز ") ++ action ++ (". صح؟")

/-- The reply of `handleNotImplemented`, the handler mapped to every
`task_*` intent (and `weekly_summary`, `image_tag_response`) here. -/
def notImplementedReply : String := "هذه الميزة لسه قيد التطوير. جاي قريب!"

/-- `CONFIDENCE_LOW` of `ConversationService`. -/
def CONFIDENCE_LOW : ℚ := mkRat 3 10

/-- `CONFIDENCE_MEDIUM` of `ConversationService`. -/
def CONFIDENCE_MEDIUM : ℚ := mkRat 6 10

/-- `CONFIDENCE_HIGH` of `ConversationService`: declared in the source and
never read by `handleText`. -/
def CONFIDENCE_HIGH : ℚ := mkRat 85 100

/-- `ConversationService.requiresConfirmation`: the data-mutating intents. -/
def ConversationService.requiresConfirmation (intent : IntentType) : Bool :=
  match intent with
  | .habit_done => true
  | .habit_skipped => true
  | .task_create => true
  | .task_complete => true
  | .task_skip => true
  | .task_shift => true
  | .task_update => true
  | .task_delete => true
  | _ => false

/-- JS `a || dflt` on an optional string. -/
def orFalsy (o : Option String) (dflt : String) : String :=
  match o with
  | some s => if s.isEmpty then dflt else s
  | none => dflt

/-- `ConversationService.describeAction`; the switch has no `task_update`
arm, so that intent falls to the default returning the intent string. -/
def ConversationService.describeAction (classified : ClassifiedIntent) : String :=
  match classified.intent with
  | .habit_done => ("تسجيل إتمام ") ++ orFalsy classified.entities.habitId ("العادة")
  | .habit_skipped => ("تخطي ") ++ orFalsy classified.entities.habitId ("العادة")
  | .task_create => ("إضافة مهمة \"") ++ orFalsy classified.entities.taskTitle ("") ++ ("\"")
  | .task_complete => ("إنهاء المهمة ") ++ orFalsy classified.entities.taskId ("")
  | .task_skip => ("تخطي المهمة ") ++ orFalsy classified.entities.taskId ("")
  | .task_shift =>
    ("نقل المهمة ") ++ orFalsy classified.entities.taskId ("") ++ (" لـ ")
      ++ orFalsy classified.entities.targetDate
           (orFalsy classified.entities.rawDateExpression (""))
  | .task_delete => ("حذف المهمة ") ++ orFalsy classified.entities.taskId ("")
  | i => intentToString i

/-- Rendering of an optional string field for `serializeClassified`. -/
def jsonOptStr (o : Option String) : String :=
  match o with
  | some s => ("\"") ++ s ++ ("\"")
  | none => ("null")

/-- Models `JSON.stringify(classified)` in `requestConfirmation`: a
concrete record rendering carrying every field of the classification.  No
claim observes the exact text, only that the full classification is what
`pendingReference` stores. -/
def serializeClassified (c : ClassifiedIntent) : String :=
  ("\x7b\"intent\":\"") ++ intentToString c.intent
    ++ ("\",\"confidence\":") ++ toString c.confidence
    ++ (",\"entities\":\x7b\"habitId\":") ++ jsonOptStr c.entities.habitId
    ++ (",\"taskId\":") ++ jsonOptStr c.entities.taskId
    ++ (",\"taskTitle\":") ++ jsonOptStr c.entities.taskTitle
    ++ (",\"taskDescription\":") ++ jsonOptStr c.entities.taskDescription
    ++ (",\"timeSlot\":") ++ jsonOptStr c.entities.timeSlot
    ++ (",\"targetDate\":") ++ jsonOptStr c.entities.targetDate
    ++ (",\"rawDateExpression\":") ++ jsonOptStr c.entities.rawDateExpression
    ++ (",\"justification\":") ++ jsonOptStr c.entities.justification
    ++ (",\"selectedOption\":") ++ (c.entities.selectedOption.map toString).getD ("null")
    ++ (",\"additionalContext\":") ++ jsonOptStr c.entities.additionalContext
    ++ ("\x7d,\"followUpQuestion\":") ++ jsonOptStr c.followUpQuestion
    ++ (",\"wasEscalated\":") ++ ((c.wasEscalated.map toString).getD ("null"))
    ++ (",\"rawResponse\":") ++ jsonOptStr c.rawResponse ++ ("\x7d")

/-- `ConversationService.requestConfirmation`: serialize the classification
into `pendingReference`, describe it into `pendingAction`, enter
`awaiting_confirmation`, and return the confirmation prompt. -/
def ConversationService.requestConfirmation (m : StateStore) (now : Nat) (pn : String)
    (classified : ClassifiedIntent) : String × StateStore :=
  let actionDescription := ConversationService.describeAction classified
  let r := StateService.setState m pn now
    { pendingState := some .awaiting_confirmation
      pendingReference := some (serializeClassified classified)
      pendingAction := some actionDescription }
  (AR_CONFIRMATION_PROMPT actionDescription, r.2)

/-- The handler-dispatch capability (`executeHandler` with the handler
map): intent and classification in, reply and updated state store out. -/
def IntentExec : Type :=
  IntentType → ClassifiedIntent → StateStore → String × StateStore

/-- `ConversationService.handleText` from the classification on: record
the user turn, read state for context building, gate on confidence
(`< 0.3` → unknown-intent reply; `< 0.6` on a mutating intent → request
confirmation; otherwise dispatch), send and record the reply.
`classified` stands for the value `aiService.classify` returned for this
turn; the top-level `catch` path is not modelled (no embedded step
throws). -/
def ConversationService.handleText (exec : IntentExec) (m : StateStore) (now : Nat)
    (pn text : String) (classified : ClassifiedIntent) : String × StateStore :=
  let m1 := StateService.addMessage m pn now .user text
  let mCtx := (StateService.getState m1 pn now).2
  let gate : String × StateStore :=
    if classified.confidence < CONFIDENCE_LOW then (AR_UNKNOWN_INTENT, mCtx)
    else if classified.confidence < CONFIDENCE_MEDIUM
        ∧ ConversationService.requiresConfirmation classified.intent then
      ConversationService.requestConfirmation mCtx now pn classified
    else exec classified.intent classified mCtx
  let m2 := StateService.addMessage gate.2 pn now .assistant gate.1
  (gate.1, m2)

/-! ## Theorems -/

/-- C2: the classifier adapter's escalation trigger, evaluated at the two
inputs where the source deviates from its design doc.  A first call
returning `greeting` at confidence 0.5 **does** trigger the second call
(its higher-confidence escalated result is adopted with
`wasEscalated = true`), and a first call returning `unclear` at
confidence 0.5 does **not** (the available higher-confidence capable
outcome is ignored), because the code guards escalation with
`intent !== 'unclear'` where the claim (and the in-repo design doc) say
the exception is `greeting`. -/
theorem classify_escalation_condition_eval :
    (ConversationAiService.classify
        (ModelOutcome.parsed { intent := some ("greeting"), confidence := some (mkRat 1 2) } ("a"))
        (ModelOutcome.parsed { intent := some ("greeting"), confidence := some (mkRat 9 10) } ("b"))
        { currentDate := "2026-02-16" }
      = { intent := .greeting, confidence := mkRat 9 10, entities := {},
          wasEscalated := some true, rawResponse := some ("b") })
    ∧ (ConversationAiService.classify
        (ModelOutcome.parsed { intent := some ("unclear"), confidence := some (mkRat 1 2) } ("a"))
        (ModelOutcome.parsed { intent := some ("unclear"), confidence := some (mkRat 9 10) } ("b"))
        { currentDate := "2026-02-16" }
      = { intent := .unclear, confidence := mkRat 1 2, entities := {},
          wasEscalated := none, rawResponse := some ("a") }) := by
  decide

/-- C5 (counterexample): when the capability returns unparseable output,
`classify` does not return confidence 0 — it returns the locally caught
0.3-confidence `unclear`, so the claim's "confidence 0" is false at this
input. -/
theorem classify_unparseable_confidence_counterexample :
    (ConversationAiService.classify (ModelOutcome.unparseable ("not valid json"))
        ModelOutcome.threw { currentDate := "2026-02-16" }).confidence = mkRat 3 10
    ∧ (ConversationAiService.classify (ModelOutcome.unparseable ("not valid json"))
        ModelOutcome.threw { currentDate := "2026-02-16" }).confidence ≠ 0 := by
  decide

/-- C5 (amended): classification failures never propagate.  A thrown
capability call yields the synthetic `unclear` with confidence 0, empty
entities and the generic apology; unparseable output yields `unclear`
with confidence 0.3, empty entities and a clarification follow-up. -/
theorem classify_failure_absorption :
    (∀ (capable : ModelOutcome) (ctx : ConversationContext),
      ConversationAiService.classify ModelOutcome.threw capable ctx = classifyErrorResult)
    ∧ (∀ (content : String) (capable : ModelOutcome) (ctx : ConversationContext),
      ConversationAiService.classify (ModelOutcome.unparseable content) capable ctx =
        { intent := .unclear
          confidence := mkRat 3 10
          entities := {}
          followUpQuestion := some ("مش فاهم قصدك. ممكن توضح أكتر؟")
          rawResponse := some content }) :=
  ⟨fun _ _ => rfl, fun _ _ _ => rfl⟩

/-- C6 (counterexample): the adapter's normalizer
(`ConversationAiService.normalizeTaskId`) maps the bare integer `"1"` to
`"1"`, not to the claimed `"t-001"`. -/
theorem aiNormalizeTaskId_bare_integer_counterexample :
    ConversationAiService.normalizeTaskId ("1") = ("1")
    ∧ ConversationAiService.normalizeTaskId ("1") ≠ ("t-001") := by
  decide

/-- C6 (amended): `TaskService.normalizeTaskId` canonicalizes bare
integers, zero-padded integers and `t`-prefixed forms to `t-NNN` and
passes non-numeric input through unchanged, while the adapter's
normalizer keeps bare digit strings as they are and canonicalizes only
`t`-prefixed forms. -/
theorem normalizeTaskId_canonicalization :
    TaskService.normalizeTaskId ("1") = ("t-001")
    ∧ TaskService.normalizeTaskId ("t-1") = ("t-001")
    ∧ TaskService.normalizeTaskId ("t-001") = ("t-001")
    ∧ TaskService.normalizeTaskId ("t1") = ("t-001")
    ∧ TaskService.normalizeTaskId ("T-001") = ("t-001")
    ∧ TaskService.normalizeTaskId ("001") = ("t-001")
    ∧ TaskService.normalizeTaskId ("abc") = ("abc")
    ∧ TaskService.normalizeTaskId ("") = ("")
    ∧ ConversationAiService.normalizeTaskId ("1") = ("1")
    ∧ ConversationAiService.normalizeTaskId ("t-1") = ("t-001")
    ∧ ConversationAiService.normalizeTaskId ("t-001") = ("t-001")
    ∧ ConversationAiService.normalizeTaskId ("T1") = ("t-001")
    ∧ ConversationAiService.normalizeTaskId ("abc") = ("abc") := by
  decide

/-- C8: `resolveRelativeDate` against the Monday reference 2026-02-16:
tomorrow, a weekday later the same week, the same weekday rolling a full
week forward, and an unrecognized expression. -/
theorem resolveRelativeDate_reference_monday :
    ConversationAiService.resolveRelativeDate ("tomorrow") ("2026-02-16") = some ("2026-02-17")
    ∧ ConversationAiService.resolveRelativeDate ("thursday") ("2026-02-16") = some ("2026-02-19")
    ∧ ConversationAiService.resolveRelativeDate ("monday") ("2026-02-16") = some ("2026-02-23")
    ∧ ConversationAiService.resolveRelativeDate ("gibberish") ("2026-02-16") = none := by
  decide

/-- A `find?` hit makes `any` true for the same predicate. -/
theorem any_of_find?_some {p : TaskEntry → Bool} {l : List TaskEntry} {t : TaskEntry}
    (h : l.find? p = some t) : l.any p = true :=
  List.any_eq_true.mpr ⟨t, List.mem_of_find?_eq_some h, List.find?_some h⟩

/-- C3: `TaskService.shift` validates the target date first — a target
strictly before `today` yields the past-date failure and an unchanged
store for **every** storage, whether or not the task exists; and when the
past-date check passes, shifting a `done` task yields the completed-task
failure and an unchanged store. -/
theorem shift_past_date_and_done_guards :
    (∀ (s : Storage) (today t : Nat) (nowIso date taskId targetDate : String)
        (reason : Option String),
      parseISODate targetDate = some t → t < today →
      TaskService.shift s today nowIso date taskId targetDate reason =
        ({ success := false, message := ("مينفعش تنقل المهمة لتاريخ فات."),
           error := some ("Cannot shift to past date") }, s))
    ∧ (∀ (s : Storage) (today : Nat) (nowIso date taskId targetDate : String)
        (reason : Option String) (task : TaskEntry),
      shiftPastCheck today targetDate = false →
      Storage.getTask s date (TaskService.normalizeTaskId taskId) = some task →
      task.status = .done →
      TaskService.shift s today nowIso date taskId targetDate reason =
        ({ success := false, task := some task,
           message := ("المهمة \"") ++ task.title ++ ("\" خلصت، مينفعش تتنقل."),
           error := some ("Cannot shift completed task") }, s)) := by
  constructor
  · intro s today t nowIso date taskId targetDate reason hpar hlt
    have hp : shiftPastCheck today targetDate = true := by
      simp [shiftPastCheck, hpar, hlt]
    simp [TaskService.shift, hp]
  · intro s today nowIso date taskId targetDate reason task hpc hlook hdone
    simp [TaskService.shift, hpc, hlook, hdone]

/-- A day log holding one task of each status, for the witnesses. -/
def demoDay : DayLog :=
  { nextTaskId := 5
    tasks :=
      [{ id := "t-001", title := "قراءة القرآن", islamicTimeSlot := "after_fajr",
         status := .done },
       { id := "t-002", title := "اشتري خضار", islamicTimeSlot := "after_dhuhr",
         status := .pending },
       { id := "t-003", title := "مذاكرة", islamicTimeSlot := "after_asr",
         status := .shifted },
       { id := "t-004", title := "رياضة", islamicTimeSlot := "after_maghrib",
         status := .skipped }] }

/-- Storage holding `demoDay` under 2026-02-16 (day number 739968). -/
def demoStorage : Storage :=
  Storage.setDay (fun _ => none) ("2026-02-16") demoDay

/-- Witness for C3 at concrete inputs: shifting to 2026-02-14 with
`today` = 2026-02-16 fails past-date with untouched storage even for the
nonexistent reference `"99"`, and shifting the `done` task `"1"` to a
future date fails as a completed task with untouched storage. -/
theorem shift_past_date_and_done_guards_witness :
    (TaskService.shift demoStorage 739968 ("2026-02-16T09:00:00.000Z") ("2026-02-16")
        ("99") ("2026-02-14") none).1.error = some ("Cannot shift to past date")
    ∧ (TaskService.shift demoStorage 739968 ("2026-02-16T09:00:00.000Z") ("2026-02-16")
        ("99") ("2026-02-14") none).2 = demoStorage
    ∧ (TaskService.shift demoStorage 739968 ("2026-02-16T09:00:00.000Z") ("2026-02-16")
        ("1") ("2026-02-18") none).1.error = some ("Cannot shift completed task")
    ∧ (TaskService.shift demoStorage 739968 ("2026-02-16T09:00:00.000Z") ("2026-02-16")
        ("1") ("2026-02-18") none).1.success = false
    ∧ (TaskService.shift demoStorage 739968 ("2026-02-16T09:00:00.000Z") ("2026-02-16")
        ("1") ("2026-02-18") none).2 = demoStorage := by
  have h1 := shift_past_date_and_done_guards.1 demoStorage 739968 739966
    ("2026-02-16T09:00:00.000Z") ("2026-02-16") ("99") ("2026-02-14") none
    (by decide) (by decide)
  have h2 := shift_past_date_and_done_guards.2 demoStorage 739968
    ("2026-02-16T09:00:00.000Z") ("2026-02-16") ("1") ("2026-02-18") none
    { id := "t-001", title := "قراءة القرآن", islamicTimeSlot := "after_fajr",
      status := .done }
    (by decide) (by decide) (by decide)
  refine ⟨?_, ?_, ?_, ?_, ?_⟩
  · rw [h1]
  · rw [h1]
  · rw [h2]
  · rw [h2]
  · rw [h2]

/-- C4: the lifecycle invariant of `complete`/`skip`/`shift` — a `done` or
`shifted` task makes each of them fail with a typed error and leave the
store untouched, while an existing `pending` or `skipped` task (plus a
passing date check for `shift`) makes each of them succeed. -/
theorem task_lifecycle_terminal_guards :
    (∀ (s : Storage) (nowIso date taskId : String) (task : TaskEntry),
      Storage.getTask s date (TaskService.normalizeTaskId taskId) = some task →
      task.status = .done ∨ task.status = .shifted →
      (TaskService.complete s nowIso date taskId).1.success = false
        ∧ (TaskService.complete s nowIso date taskId).1.error ≠ none
        ∧ (TaskService.complete s nowIso date taskId).2 = s)
    ∧ (∀ (s : Storage) (nowIso date taskId : String) (justification : Option String)
        (task : TaskEntry),
      Storage.getTask s date (TaskService.normalizeTaskId taskId) = some task →
      task.status = .done ∨ task.status = .shifted →
      (TaskService.skip s nowIso date taskId justification).1.success = false
        ∧ (TaskService.skip s nowIso date taskId justification).1.error ≠ none
        ∧ (TaskService.skip s nowIso date taskId justification).2 = s)
    ∧ (∀ (s : Storage) (today : Nat) (nowIso date taskId targetDate : String)
        (reason : Option String) (task : TaskEntry),
      Storage.getTask s date (TaskService.normalizeTaskId taskId) = some task →
      task.status = .done ∨ task.status = .shifted →
      (TaskService.shift s today nowIso date taskId targetDate reason).1.success = false
        ∧ (TaskService.shift s today nowIso date taskId targetDate reason).1.error ≠ none
        ∧ (TaskService.shift s today nowIso date taskId targetDate reason).2 = s)
    ∧ (∀ (s : Storage) (nowIso date taskId : String) (task : TaskEntry),
      Storage.getTask s date (TaskService.normalizeTaskId taskId) = some task →
      task.status = .pending ∨ task.status = .skipped →
      (TaskService.complete s nowIso date taskId).1.success = true)
    ∧ (∀ (s : Storage) (nowIso date taskId : String) (justification : Option String)
        (task : TaskEntry),
      Storage.getTask s date (TaskService.normalizeTaskId taskId) = some task →
      task.status = .pending ∨ task.status = .skipped →
      (TaskService.skip s nowIso date taskId justification).1.success = true)
    ∧ (∀ (s : Storage) (today : Nat) (nowIso date taskId targetDate : String)
        (reason : Option String) (task : TaskEntry),
      Storage.getTask s date (TaskService.normalizeTaskId taskId) = some task →
      task.status = .pending ∨ task.status = .skipped →
      shiftPastCheck today targetDate = false →
      (TaskService.shift s today nowIso date taskId targetDate reason).1.success = true) := by
  refine ⟨?_, ?_, ?_, ?_, ?_, ?_⟩
  · intro s nowIso date taskId task hlook hstat
    rcases hstat with h | h <;> simp [TaskService.complete, hlook, h]
  · intro s nowIso date taskId justification task hlook hstat
    rcases hstat with h | h <;> simp [TaskService.skip, hlook, h]
  · intro s today nowIso date taskId targetDate reason task hlook hstat
    cases hpc : shiftPastCheck today targetDate
    · rcases hstat with h | h <;> simp [TaskService.shift, hpc, hlook, h]
    · simp [TaskService.shift, hpc]
  · intro s nowIso date taskId task hlook hstat
    rcases hstat with h | h <;> simp [TaskService.complete, hlook, h]
  · intro s nowIso date taskId justification task hlook hstat
    rcases hstat with h | h <;> simp [TaskService.skip, hlook, h]
  · intro s today nowIso date taskId targetDate reason task hlook hstat hpc
    rcases hstat with h | h <;> simp [TaskService.shift, hpc, hlook, h]

/-- Witness for C4 at `demoStorage`: the `done` task blocks `complete`,
the `shifted` task blocks `skip` and `shift`, and the `pending`/`skipped`
tasks let all three operations succeed. -/
theorem task_lifecycle_terminal_guards_witness :
    (TaskService.complete demoStorage ("now") ("2026-02-16") ("1")).1.success = false
    ∧ (TaskService.complete demoStorage ("now") ("2026-02-16") ("1")).2 = demoStorage
    ∧ (TaskService.skip demoStorage ("now") ("2026-02-16") ("3") none).1.success = false
    ∧ (TaskService.skip demoStorage ("now") ("2026-02-16") ("3") none).2 = demoStorage
    ∧ (TaskService.shift demoStorage 739968 ("now") ("2026-02-16") ("3") ("2026-02-20")
        none).1.success = false
    ∧ (TaskService.shift demoStorage 739968 ("now") ("2026-02-16") ("3") ("2026-02-20")
        none).2 = demoStorage
    ∧ (TaskService.complete demoStorage ("now") ("2026-02-16") ("2")).1.success = true
    ∧ (TaskService.skip demoStorage ("now") ("2026-02-16") ("4") (some ("مشغول"))).1.success
        = true
    ∧ (TaskService.shift demoStorage 739968 ("now") ("2026-02-16") ("2") ("2026-02-18")
        none).1.success = true := by
  have hdone : Storage.getTask demoStorage ("2026-02-16")
      (TaskService.normalizeTaskId ("1")) = some
      { id := "t-001", title := "قراءة القرآن", islamicTimeSlot := "after_fajr",
        status := .done } := by decide
  have hshifted : Storage.getTask demoStorage ("2026-02-16")
      (TaskService.normalizeTaskId ("3")) = some
      { id := "t-003", title := "مذاكرة", islamicTimeSlot := "after_asr",
        status := .shifted } := by decide
  have hpend : Storage.getTask demoStorage ("2026-02-16")
      (TaskService.normalizeTaskId ("2")) = some
      { id := "t-002", title := "اشتري خضار", islamicTimeSlot := "after_dhuhr",
        status := .pending } := by decide
  have hskip : Storage.getTask demoStorage ("2026-02-16")
      (TaskService.normalizeTaskId ("4")) = some
      { id := "t-004", title := "رياضة", islamicTimeSlot := "after_maghrib",
        status := .skipped } := by decide
  have h1 := task_lifecycle_terminal_guards.1 demoStorage ("now") ("2026-02-16") ("1")
    _ hdone (Or.inl rfl)
  have h2 := task_lifecycle_terminal_guards.2.1 demoStorage ("now") ("2026-02-16") ("3")
    none _ hshifted (Or.inr rfl)
  have h3 := task_lifecycle_terminal_guards.2.2.1 demoStorage 739968 ("now") ("2026-02-16")
    ("3") ("2026-02-20") none _ hshifted (Or.inr rfl)
  have h4 := task_lifecycle_terminal_guards.2.2.2.1 demoStorage ("now") ("2026-02-16") ("2")
    _ hpend (Or.inl rfl)
  have h5 := task_lifecycle_terminal_guards.2.2.2.2.1 demoStorage ("now") ("2026-02-16")
    ("4") (some ("مشغول")) _ hskip (Or.inr rfl)
  have h6 := task_lifecycle_terminal_guards.2.2.2.2.2 demoStorage 739968 ("now")
    ("2026-02-16") ("2") ("2026-02-18") none _ hpend (Or.inl rfl) (by decide)
  exact ⟨h1.1, h1.2.2, h2.1, h2.2.2, h3.1, h3.2.2, h4, h5, h6⟩

/-- C10: `update` and `delete` carry no done/shifted guard — an existing
task of any status is updated whenever a truthy title, description or
time slot is supplied, and deleted unconditionally; their only failure
results are not-found / no-updates (update) and not-found / storage
delete failure (delete). -/
theorem update_delete_ignore_status :
    (∀ (s : Storage) (nowIso date taskId : String) (e : ExtractedEntities)
        (task : TaskEntry),
      Storage.getTask s date (TaskService.normalizeTaskId taskId) = some task →
      (isTruthy e.taskTitle = true ∨ isTruthy e.taskDescription = true
        ∨ isTruthy e.timeSlot = true) →
      (TaskService.update s nowIso date taskId e).1.success = true)
    ∧ (∀ (s : Storage) (nowIso date taskId : String) (e : ExtractedEntities),
      (TaskService.update s nowIso date taskId e).1.success = false →
      (TaskService.update s nowIso date taskId e).1.error = some ("Task not found")
        ∨ (TaskService.update s nowIso date taskId e).1.error = some ("No updates provided"))
    ∧ (∀ (s : Storage) (date taskId : String) (task : TaskEntry),
      Storage.getTask s date (TaskService.normalizeTaskId taskId) = some task →
      (TaskService.delete s date taskId).1.success = true)
    ∧ (∀ (s : Storage) (date taskId : String),
      (TaskService.delete s date taskId).1.success = false →
      (TaskService.delete s date taskId).1.error = some ("Task not found")
        ∨ (TaskService.delete s date taskId).1.error = some ("Delete failed")) := by
  refine ⟨?_, ?_, ?_, ?_⟩
  · intro s nowIso date taskId e task hlook hup
    simp [TaskService.update, hlook, hup]
  · intro s nowIso date taskId e hfail
    cases hlook : Storage.getTask s date (TaskService.normalizeTaskId taskId) with
    | none => exact Or.inl (by simp [TaskService.update, hlook])
    | some task =>
      by_cases hup : (isTruthy e.taskTitle = true ∨ isTruthy e.taskDescription = true
        ∨ isTruthy e.timeSlot = true)
      · exfalso
        rw [TaskService.update] at hfail
        simp [hlook, hup] at hfail
      · exact Or.inr (by simp [TaskService.update, hlook, hup])
  · intro s date taskId task hlook
    have hany : (Storage.getDay s date).tasks.any
        (fun t => t.id = TaskService.normalizeTaskId taskId) = true := by
      apply any_of_find?_some (t := task)
      simpa [Storage.getTask] using hlook
    simp [TaskService.delete, hlook, Storage.deleteTask, hany]
  · intro s date taskId hfail
    cases hlook : Storage.getTask s date (TaskService.normalizeTaskId taskId) with
    | none => exact Or.inl (by simp [TaskService.delete, hlook])
    | some task =>
      exfalso
      have hany : (Storage.getDay s date).tasks.any
          (fun t => t.id = TaskService.normalizeTaskId taskId) = true := by
        apply any_of_find?_some (t := task)
        simpa [Storage.getTask] using hlook
      rw [TaskService.delete] at hfail
      simp [hlook, Storage.deleteTask, hany] at hfail

/-- Witness for C10 at `demoStorage`: retitling the `done` task succeeds,
deleting the `shifted` task succeeds, and an update carrying no fields
fails with the no-updates error. -/
theorem update_delete_ignore_status_witness :
    (TaskService.update demoStorage ("now") ("2026-02-16") ("1")
        { taskTitle := some ("عنوان جديد") }).1.success = true
    ∧ (TaskService.delete demoStorage ("2026-02-16") ("3")).1.success = true
    ∧ ((TaskService.update demoStorage ("now") ("2026-02-16") ("1") {}).1.error
          = some ("Task not found")
        ∨ (TaskService.update demoStorage ("now") ("2026-02-16") ("1") {}).1.error
          = some ("No updates provided")) := by
  have h1 := update_delete_ignore_status.1 demoStorage ("now") ("2026-02-16") ("1")
    { taskTitle := some ("عنوان جديد") }
    { id := "t-001", title := "قراءة القرآن", islamicTimeSlot := "after_fajr",
      status := .done }
    (by decide) (Or.inl (by decide))
  have h2 := update_delete_ignore_status.2.2.1 demoStorage ("2026-02-16") ("3")
    { id := "t-003", title := "مذاكرة", islamicTimeSlot := "after_asr",
      status := .shifted }
    (by decide)
  have h3 := update_delete_ignore_status.2.1 demoStorage ("now") ("2026-02-16") ("1") {}
    (by decide)
  exact ⟨h1, h2, h3⟩

/-- `setState` with a non-idle pending state, a reference and an action:
the store maps the key to the returned state, whose pending fields hold
the supplied values and whose `pendingSetAt` is stamped `now`. -/
theorem setState_pending_fields (m : StateStore) (pn : String) (now : Nat)
    (ps : PendingState) (ref act : String) (hps : ps ≠ .idle) :
    (StateService.setState m pn now
        { pendingState := some ps, pendingReference := some ref,
          pendingAction := some act }).2 pn
      = some (StateService.setState m pn now
        { pendingState := some ps, pendingReference := some ref,
          pendingAction := some act }).1
    ∧ (StateService.setState m pn now
        { pendingState := some ps, pendingReference := some ref,
          pendingAction := some act }).1.pendingState = ps
    ∧ (StateService.setState m pn now
        { pendingState := some ps, pendingReference := some ref,
          pendingAction := some act }).1.pendingReference = some ref
    ∧ (StateService.setState m pn now
        { pendingState := some ps, pendingReference := some ref,
          pendingAction := some act }).1.pendingAction = some act
    ∧ (StateService.setState m pn now
        { pendingState := some ps, pendingReference := some ref,
          pendingAction := some act }).1.pendingSetAt = some now := by
  simp [StateService.setState, storeSet, hps]

/-- `addMessage` touches only the history and the activity stamp: the
pending fields of a stored, unexpired state survive it. -/
theorem addMessage_preserves_pending (m : StateStore) (pn : String) (now : Nat)
    (role : MsgRole) (content : String) (st : ConversationState)
    (hlook : m pn = some st) (hexp : StateService.isPendingExpired now st = false) :
    ((StateService.addMessage m pn now role content) pn).map ConversationState.pendingState
        = some st.pendingState
    ∧ ((StateService.addMessage m pn now role content) pn).map
        ConversationState.pendingReference = some st.pendingReference
    ∧ ((StateService.addMessage m pn now role content) pn).map
        ConversationState.pendingAction = some st.pendingAction := by
  simp [StateService.addMessage, StateService.getState, hlook, hexp, storeSet]

/-- C9: lazy pending-state expiry in `getState`.  For a stored state with
a non-idle pending state stamped at `t`: when more than 5 minutes have
elapsed, `getState` returns it reset to idle with reference, action and
stamp cleared, and `hasPendingState` is false; when 5 minutes or less
have elapsed, `getState` returns the state and store untouched and
`hasPendingState` is true. -/
theorem getState_pending_expiry (m : StateStore) (pn : String) (now t : Nat)
    (st : ConversationState) (hlook : m pn = some st)
    (hpend : st.pendingState ≠ .idle) (hset : st.pendingSetAt = some t) :
    (((now : Int) - t > (PENDING_EXPIRY_MS : Int)) →
      (StateService.getState m pn now).1.pendingState = .idle
        ∧ (StateService.getState m pn now).1.pendingReference = none
        ∧ (StateService.getState m pn now).1.pendingAction = none
        ∧ (StateService.getState m pn now).1.pendingSetAt = none
        ∧ (StateService.hasPendingState m pn now).1 = false)
    ∧ (((now : Int) - t ≤ (PENDING_EXPIRY_MS : Int)) →
      StateService.getState m pn now = (st, m)
        ∧ (StateService.hasPendingState m pn now).1 = true) := by
  constructor
  · intro hgt
    have he : StateService.isPendingExpired now st = true := by
      simp [StateService.isPendingExpired, hpend, hset]
      exact hgt
    simp [StateService.getState, StateService.hasPendingState,
      StateService.clearPendingState, storeSet, hlook, he]
  · intro hle
    have he : StateService.isPendingExpired now st = false := by
      simp [StateService.isPendingExpired, hpend, hset]
      omega
    constructor
    · simp [StateService.getState, hlook, he]
    · simp [StateService.hasPendingState, StateService.getState, hlook, he, hpend]

/-- A conversation whose justification request was stamped at time 0. -/
def demoPendingConv : ConversationState :=
  { phoneNumber := "201234567890"
    pendingState := .awaiting_justification
    pendingReference := some ("quran-reading")
    pendingAction := some ("تخطي قراءة القرآن")
    pendingSetAt := some 0
    lastActivity := 0 }

/-- A state store holding `demoPendingConv`. -/
def demoStateStore : StateStore :=
  storeSet (fun _ => none) ("201234567890") demoPendingConv

/-- Witness for C9: six minutes after the stamp the pending state reads
as idle and `hasPendingState` is false; four minutes after, the state is
returned intact and `hasPendingState` is true. -/
theorem getState_pending_expiry_witness :
    (StateService.getState demoStateStore ("201234567890") 360000).1.pendingState
        = PendingState.idle
    ∧ (StateService.hasPendingState demoStateStore ("201234567890") 360000).1 = false
    ∧ (StateService.getState demoStateStore ("201234567890") 240000).1.pendingState
        = PendingState.awaiting_justification
    ∧ (StateService.hasPendingState demoStateStore ("201234567890") 240000).1 = true := by
  have ha := (getState_pending_expiry demoStateStore ("201234567890") 360000 0
    demoPendingConv (by decide) (by decide) (by decide)).1 (by decide)
  have hb := (getState_pending_expiry demoStateStore ("201234567890") 240000 0
    demoPendingConv (by decide) (by decide) (by decide)).2 (by decide)
  exact ⟨ha.1, ha.2.2.2.2, by rw [hb.1]; rfl, hb.2⟩

/-- The dispatch of this source revision for every `task_*` intent:
`handleNotImplemented`, a pure constant reply. -/
def execNotImplementedStub : IntentExec :=
  fun _ _ st => (notImplementedReply, st)

/-- A mutating classification inside the claimed [0.6, 0.85) band. -/
def demoMidbandClassified : ClassifiedIntent :=
  { intent := .task_delete, confidence := mkRat 7 10, entities := {} }

/-- A mutating classification inside the code's [0.3, 0.6) band. -/
def demoMidConfClassified : ClassifiedIntent :=
  { intent := .habit_done, confidence := mkRat 1 2,
    entities := { habitId := some ("quran-reading") } }

/-- C1 (counterexample): a freshly classified mutating intent
(`task_delete`) at confidence 0.7 — inside the claimed [0.6, 0.85)
confirmation band — is executed by `handleText` (this revision dispatches
it to the not-implemented stub): the reply is the handler's, not the
confirmation prompt, and no pending confirmation is stored. -/
theorem handleText_midband_executes_counterexample :
    (ConversationService.handleText execNotImplementedStub (fun _ => none) 0
        ("201234567890") ("امسح المهمة") demoMidbandClassified).1 = notImplementedReply
    ∧ (ConversationService.handleText execNotImplementedStub (fun _ => none) 0
        ("201234567890") ("امسح المهمة") demoMidbandClassified).1
      ≠ AR_CONFIRMATION_PROMPT (ConversationService.describeAction demoMidbandClassified)
    ∧ (((ConversationService.handleText execNotImplementedStub (fun _ => none) 0
        ("201234567890") ("امسح المهمة") demoMidbandClassified).2 ("201234567890")).map
        ConversationState.pendingState) = some PendingState.idle
    ∧ (((ConversationService.handleText execNotImplementedStub (fun _ => none) 0
        ("201234567890") ("امسح المهمة") demoMidbandClassified).2 ("201234567890")).map
        ConversationState.pendingReference) = some none := by
  decide

/-- C1 (amended): for a freshly classified mutating intent with
`0.3 ≤ confidence < 0.6`, `handleText` does not execute the handler — the
reply is the confirmation prompt, the serialized classification lands in
`pendingReference`, its description in `pendingAction`, the state becomes
`awaiting_confirmation`, and the turn's outcome is independent of the
dispatch capability. -/
theorem handleText_confirmation_band (exec : IntentExec) (m : StateStore) (now : Nat)
    (pn text : String) (c : ClassifiedIntent)
    (h1 : CONFIDENCE_LOW ≤ c.confidence) (h2 : c.confidence < CONFIDENCE_MEDIUM)
    (h3 : ConversationService.requiresConfirmation c.intent = true) :
    (ConversationService.handleText exec m now pn text c).1
        = AR_CONFIRMATION_PROMPT (ConversationService.describeAction c)
    ∧ (((ConversationService.handleText exec m now pn text c).2 pn).map
        ConversationState.pendingState) = some PendingState.awaiting_confirmation
    ∧ (((ConversationService.handleText exec m now pn text c).2 pn).map
        ConversationState.pendingReference) = some (some (serializeClassified c))
    ∧ (((ConversationService.handleText exec m now pn text c).2 pn).map
        ConversationState.pendingAction)
        = some (some (ConversationService.describeAction c))
    ∧ (∀ exec' : IntentExec,
        ConversationService.handleText exec' m now pn text c
          = ConversationService.handleText exec m now pn text c) := by
  have hnotlow : ¬ (c.confidence < CONFIDENCE_LOW) := not_lt.mpr h1
  set mCtx := (StateService.getState (StateService.addMessage m pn now .user text) pn now).2
    with hmCtx
  have hA := setState_pending_fields mCtx pn now .awaiting_confirmation
    (serializeClassified c) (ConversationService.describeAction c) (by simp)
  set stP := (StateService.setState mCtx pn now
    { pendingState := some .awaiting_confirmation,
      pendingReference := some (serializeClassified c),
      pendingAction := some (ConversationService.describeAction c) }).1 with hstP
  have hexp : StateService.isPendingExpired now stP = false := by
    simp [StateService.isPendingExpired, hA.2.1, hA.2.2.2.2]
  have hB := addMessage_preserves_pending
    (StateService.setState mCtx pn now
      { pendingState := some .awaiting_confirmation,
        pendingReference := some (serializeClassified c),
        pendingAction := some (ConversationService.describeAction c) }).2
    pn now .assistant (AR_CONFIRMATION_PROMPT (ConversationService.describeAction c))
    stP hA.1 hexp
  have hmain : ConversationService.handleText exec m now pn text c
      = (AR_CONFIRMATION_PROMPT (ConversationService.describeAction c),
         StateService.addMessage
           (StateService.setState mCtx pn now
             { pendingState := some .awaiting_confirmation,
               pendingReference := some (serializeClassified c),
               pendingAction := some (ConversationService.describeAction c) }).2
           pn now .assistant
           (AR_CONFIRMATION_PROMPT (ConversationService.describeAction c))) := by
    rw [ConversationService.handleText]
    rw [if_neg hnotlow, if_pos ⟨h2, h3⟩]
    rfl
  refine ⟨by rw [hmain], ?_, ?_, ?_, ?_⟩
  · rw [hmain]; exact hB.1.trans (by rw [hA.2.1])
  · rw [hmain]; exact hB.2.1.trans (by rw [hA.2.2.1])
  · rw [hmain]; exact hB.2.2.trans (by rw [hA.2.2.2.1])
  · intro exec'
    have hmain' : ConversationService.handleText exec' m now pn text c
        = (AR_CONFIRMATION_PROMPT (ConversationService.describeAction c),
           StateService.addMessage
             (StateService.setState mCtx pn now
               { pendingState := some .awaiting_confirmation,
                 pendingReference := some (serializeClassified c),
                 pendingAction := some (ConversationService.describeAction c) }).2
             pn now .assistant
             (AR_CONFIRMATION_PROMPT (ConversationService.describeAction c))) := by
      rw [ConversationService.handleText]
      rw [if_neg hnotlow, if_pos ⟨h2, h3⟩]
      rfl
    rw [hmain, hmain']

/-- Witness for the amended C1 at a concrete 0.5-confidence `habit_done`
classification against an empty store. -/
theorem handleText_confirmation_band_witness :
    (ConversationService.handleText execNotImplementedStub (fun _ => none) 0
        ("201234567890") ("خلصت") demoMidConfClassified).1
      = AR_CONFIRMATION_PROMPT (ConversationService.describeAction demoMidConfClassified)
    ∧ (((ConversationService.handleText execNotImplementedStub (fun _ => none) 0
        ("201234567890") ("خلصت") demoMidConfClassified).2 ("201234567890")).map
        ConversationState.pendingState) = some PendingState.awaiting_confirmation
    ∧ (((ConversationService.handleText execNotImplementedStub (fun _ => none) 0
        ("201234567890") ("خلصت") demoMidConfClassified).2 ("201234567890")).map
        ConversationState.pendingReference)
      = some (some (serializeClassified demoMidConfClassified)) := by
  have h := handleText_confirmation_band execNotImplementedStub (fun _ => none) 0
    ("201234567890") ("خلصت") demoMidConfClassified (by decide) (by decide) (by decide)
  exact ⟨h.1, h.2.1, h.2.2.1⟩

/-! ## The duplicate-scan specification (claim-side definitions for C7) -/

/-- The claim's window: the 7 days from 3 before through 3 after the base. -/
def windowDates (base : Nat) : List Nat :=
  (List.range 7).map (fun k => base - 3 + k)

/-- The claim's per-day candidates: a missing day record reads as empty,
`done`/`shifted` entries are ignored, and only candidates with Jaccard
similarity at least 0.7 are kept. -/
def dayCandidates (s : Storage) (taskTitle : String) (d : Nat) : List SimilarTaskResult :=
  match s (formatISODate d) with
  | none => []
  | some log =>
    log.tasks.filterMap (fun task =>
      if task.status = .shifted ∨ task.status = .done then none
      else
        let similarity := TaskService.calculateSimilarity taskTitle task.title
        if mkRat 7 10 ≤ similarity then
          some { task := task, date := formatISODate d, similarity := similarity }
        else none)

/-- All qualifying candidates of the window, in scan order. -/
def weekCandidates (s : Storage) (base : Nat) (taskTitle : String) :
    List SimilarTaskResult :=
  ((windowDates base).map (dayCandidates s taskTitle)).flatten

/-- The claim's selection: the candidate of highest similarity, an earlier
one beating an equally similar later one; `none` when no candidate
qualifies. -/
def bestBySimilarity : List SimilarTaskResult → Option SimilarTaskResult
  | [] => none
  | x :: xs =>
    some (xs.foldl (fun best c => if c.similarity > best.similarity then c else best) x)

/-- Head of a stable descending insert: the more similar of the inserted
element and the old head, the old head on ties. -/
theorem head_insertBySimilarity (x : SimilarTaskResult) (l : List SimilarTaskResult) :
    (insertBySimilarity x l).head? = some (match l.head? with
      | none => x
      | some y => if y.similarity > x.similarity then y else x) := by
  cases l with
  | nil => simp [insertBySimilarity]
  | cons y ys =>
    by_cases h : y.similarity > x.similarity <;> simp [insertBySimilarity, h]

/-- The strict-improvement fold over a tail, restated through
`bestBySimilarity` of that tail. -/
theorem foldl_best_step (l : List SimilarTaskResult) (x : SimilarTaskResult) :
    l.foldl (fun best c => if c.similarity > best.similarity then c else best) x
      = (match bestBySimilarity l with
        | none => x
        | some m => if m.similarity > x.similarity then m else x) := by
  induction l generalizing x with
  | nil => rfl
  | cons y ys ih =>
    rw [List.foldl_cons, ih]
    conv_rhs => rw [bestBySimilarity]
    rw [ih y]
    cases hys : bestBySimilarity ys with
    | none => simp
    | some m =>
      simp only []
      split_ifs <;> first | rfl | (exfalso; linarith)

/-- The head of the stable descending sort is the earliest maximal
element — `results.sort(...)[0]` equals the claim's selection. -/
theorem head_sortBySimilarityDesc (l : List SimilarTaskResult) :
    (sortBySimilarityDesc l).head? = bestBySimilarity l := by
  induction l with
  | nil => rfl
  | cons x xs ih =>
    simp only [sortBySimilarityDesc]
    rw [head_insertBySimilarity, ih]
    conv_rhs => rw [bestBySimilarity]
    rw [foldl_best_step]

/-- Collecting with `acc ++ ·` over a fold is flattening a map. -/
theorem foldl_append_flatten {α β : Type} (l : List α) (f : α → List β) (acc : List β) :
    l.foldl (fun a x => a ++ f x) acc = acc ++ (l.map f).flatten := by
  induction l generalizing acc with
  | nil => simp
  | cons x xs ih => simp [ih, List.append_assoc]

/-- The loop's `addDays`/`subDays` day at index `k` is day `base - 3 + k`
(for any base at least 3 days after day zero of the count). -/
theorem implCheckDate_eq {base : Nat} (hb : 3 ≤ base) (k : Nat) :
    implCheckDate base k = base - 3 + k := by
  simp only [implCheckDate]
  split_ifs <;> omega

/-- C7: `findSimilarInWeek` equals the claim's description — it scans
exactly the 7 day-records from 3 days before through 3 days after the
day (missing records as empty), ignores `done`/`shifted` tasks, keeps
similarity ≥ 0.7, and returns the highest-similarity candidate with ties
broken by scan order, or `none`. -/
theorem findSimilarInWeek_spec (s : Storage) (day title : String) (base : Nat)
    (hpar : parseISODate day = some base) (hb : 3 ≤ base) :
    TaskService.findSimilarInWeek s day title
      = bestBySimilarity (weekCandidates s base title) := by
  simp only [TaskService.findSimilarInWeek, hpar]
  have hbody : (fun (acc : List SimilarTaskResult) (k : Nat) =>
      match s (formatISODate (implCheckDate base k)) with
      | none => acc
      | some log =>
        acc ++ log.tasks.filterMap (fun task =>
          if task.status = .shifted ∨ task.status = .done then none
          else
            let similarity := TaskService.calculateSimilarity title task.title
            if mkRat 7 10 ≤ similarity then
              some { task := task, date := formatISODate (implCheckDate base k),
                     similarity := similarity }
            else none))
      = (fun acc k => acc ++ dayCandidates s title (implCheckDate base k)) := by
    funext acc k
    cases h : s (formatISODate (implCheckDate base k)) <;> simp [dayCandidates, h]
  rw [hbody]
  rw [foldl_append_flatten]
  have hwin : (fun (k : Nat) => dayCandidates s title (implCheckDate base k))
      = fun k => dayCandidates s title (base - 3 + k) := by
    funext k
    rw [implCheckDate_eq hb]
  rw [hwin]
  have hweek : weekCandidates s base title
      = ((List.range 7).map (fun k => dayCandidates s title (base - 3 + k))).flatten := by
    simp only [weekCandidates, windowDates, List.map_map, Function.comp_def]
  rw [← hweek]
  simp only [List.nil_append]
  cases hcand : weekCandidates s base title with
  | nil => simp [bestBySimilarity]
  | cons a l =>
    simp only []
    rw [head_sortBySimilarityDesc]

/-- A week of day files around 2026-02-16: an exact-title pending task at
each edge of the window (2026-02-13 and 2026-02-19) and an exact-title
`done` task on the day itself. -/
def demoWeekStorage : Storage :=
  Storage.setDay (Storage.setDay (Storage.setDay (fun _ => none)
    ("2026-02-13")
    { nextTaskId := 2
      tasks := [{ id := "t-001", title := "اشتري خضار", islamicTimeSlot := "after_dhuhr",
                  status := .pending }] })
    ("2026-02-16")
    { nextTaskId := 2
      tasks := [{ id := "t-001", title := "اشتري خضار", islamicTimeSlot := "after_dhuhr",
                  status := .done }] })
    ("2026-02-19")
    { nextTaskId := 2
      tasks := [{ id := "t-001", title := "اشتري خضار", islamicTimeSlot := "after_dhuhr",
                  status := .pending }] }

/-- Witness for C7: around 2026-02-16 the scan skips the `done` entry and
returns the 2026-02-13 candidate — the earliest of the two similarity-1
hits at the window edges. -/
theorem findSimilarInWeek_spec_witness :
    TaskService.findSimilarInWeek demoWeekStorage ("2026-02-16") ("اشتري خضار")
      = some { task := { id := "t-001", title := "اشتري خضار",
                         islamicTimeSlot := "after_dhuhr", status := .pending }
               date := "2026-02-13"
               similarity := 1 } := by
  have h := findSimilarInWeek_spec demoWeekStorage ("2026-02-16") ("اشتري خضار") 739968
    (by decide) (by decide)
  rw [h]
  decide

end Taskana
